import Mathlib

/-!
Verification of the RADOS block device volume driver
(cinder/volume/drivers/rbd.py) against its specification.

Python strings are modelled as `List Char`; Python integers as `Int`
(or `Nat` where the source value is a count that is never negative).
Backend (librados / librbd) calls are external collaborators: they are
modelled by small state types or success oracles, following the spec's
description of the backend, and each such model is marked in its doc
comment.  Exceptions are modelled with `Except`: an `.error` result
means the Python function raised before performing any further state
update, so the caller's state is unchanged.
-/

/-! ### Python string primitives used by `_parse_location` -/

/-- Python `str.split(sep)` for a one-character separator: splits the
string at every occurrence of `sep`, keeping empty pieces, and returns
`[[]]` on the empty string (as Python returns `['']`). -/
def splitOnChar (sep : Char) : List Char → List (List Char)
  | [] => [[]]
  | c :: cs =>
    match splitOnChar sep cs with
    | [] => [[c]]
    | h :: t => if c = sep then [] :: h :: t else (c :: h) :: t

/-- Python `str.startswith(pre)`: the first argument is the candidate
prefix, the second the string tested. -/
def startsWithList : List Char → List Char → Bool
  | [], _ => true
  | _ :: _, [] => false
  | p :: ps, c :: cs => p = c && startsWithList ps cs

/-- Hexadecimal digit test, as accepted by Python 2 `urllib.unquote`
(`0-9`, `a-f`, `A-F`). -/
def isHexDigitChar (c : Char) : Bool :=
  c.isDigit || ('a' ≤ c && c ≤ 'f') || ('A' ≤ c && c ≤ 'F')

/-- Numeric value of a hexadecimal digit. -/
def hexVal (c : Char) : Nat :=
  if c.isDigit then c.toNat - '0'.toNat
  else if 'a' ≤ c && c ≤ 'f' then c.toNat - 'a'.toNat + 10
  else c.toNat - 'A'.toNat + 10

/-- One segment following a `%` in Python 2 `urllib.unquote`: if its first
two characters are hex digits they decode to the corresponding byte and the
rest of the segment is kept; otherwise the `%` is restored verbatim. -/
def unquoteSegment (item : List Char) : List Char :=
  match item with
  | c1 :: c2 :: rest =>
      if isHexDigitChar c1 && isHexDigitChar c2 then
        Char.ofNat (16 * hexVal c1 + hexVal c2) :: rest
      else '%' :: item
  | _ => '%' :: item

/-- Python 2 `urllib.unquote`: split on `%`, keep the first piece, and
decode each later piece with `unquoteSegment`. -/
def unquote (s : List Char) : List Char :=
  match splitOnChar '%' s with
  | [] => s
  | first :: rest => rest.foldl (fun acc item => acc ++ unquoteSegment item) first

/-! ### RBDDriver._parse_location (rbd.py lines 445-457) -/

/-- The single error kind `_parse_location` raises
(`exception.ImageUnacceptable`). -/
inductive LocationError
  | imageUnacceptable
deriving DecidableEq

/-- The pieces `_parse_location` examines: the input past the 6-character
prefix `rbd://`, split on `/`, each piece percent-decoded
(`map(urllib.unquote, location[len(prefix):].split('/'))`). -/
def rbdUrlPieces (location : List Char) : List (List Char) :=
  (splitOnChar '/' (location.drop 6)).map unquote

/-- RBDDriver._parse_location: require the `rbd://` prefix, then reject if
any decoded piece is blank or the piece count is not 4, else return the
pieces. -/
def parse_location (location : List Char) :
    Except LocationError (List (List Char)) :=
  if !(startsWithList ("rbd://".toList) location) then
    .error .imageUnacceptable
  else
    let pieces := rbdUrlPieces location
    if pieces.any (fun p => p.isEmpty) then .error .imageUnacceptable
    else if pieces.length ≠ 4 then .error .imageUnacceptable
    else .ok pieces

/-! ### RBDImageIOWrapper (rbd.py lines 88-168) -/

/-- Errors raised by RBDImageIOWrapper.seek: `IOError` for the two
documented invalid-argument cases, and `AttributeError` for a failed
Python attribute lookup. -/
inductive SeekError
  | ioError
  | attributeError
deriving DecidableEq

/-- RBDImageIOWrapper.seek (lines 128-143).  Arguments: `cur` is the
stream state `self._offset`, then the call arguments `offset` and
`whence`.  Returns the new value of `self._offset`; an `.error` result
models an exception raised before the assignment `self._offset =
new_offset`, so on error the stream offset is unchanged.

The `whence == 2` branch of the source evaluates `self.volume.size()`,
but RBDImageIOWrapper stores its image as `self.rbd_image` and defines
no attribute `volume` (nor does its base class `io.RawIOBase`), so that
attribute lookup raises `AttributeError` before any arithmetic or any
negativity check runs. -/
def wrapper_seek (cur offset whence : Int) : Except SeekError Int :=
  if whence = 0 then
    let new_offset := offset
    if new_offset < 0 then .error .ioError else .ok new_offset
  else if whence = 1 then
    let new_offset := cur + offset
    if new_offset < 0 then .error .ioError else .ok new_offset
  else if whence = 2 then
    .error .attributeError
  else
    .error .ioError

/-- The arithmetic written in the `whence == 2` branch (lines 134-135),
had the attribute lookup succeeded and returned the image size:
`new_offset = size() - 1; new_offset += offset`. -/
def seek_end_as_written (size : Nat) (offset : Int) : Int :=
  (size : Int) - 1 + offset

/-- Backend call `rbd_image.read(offset, length)`: librbd returns the
requested byte range of the image content.  The wrapper below only
issues this call with `0 ≤ offset`, `0 ≤ length` and
`offset + length ≤ size` whenever its own offset is within the image. -/
def rbd_image_read (data : List Nat) (offset length : Int) : List Nat :=
  (data.drop offset.toNat).take length.toNat

/-- RBDImageIOWrapper.read (lines 102-119).  `data` is the image content
(so `self.rbd_image.size()` is `data.length`), `cur` is `self._offset`,
and `len?` is the optional `length` argument (`none` for the Python
default `None`).  Returns the bytes returned to the caller and the new
value of `self._offset`. -/
def wrapper_read (data : List Nat) (cur : Int) (len? : Option Int) :
    List Nat × Int :=
  let offset := cur
  let total : Int := data.length
  if offset = total then ([], cur)
  else
    let length := len?.getD total
    let length := if offset + length > total then total - offset else length
    (rbd_image_read data offset length, cur + length)

/-! ### RBDDriver.create_volume (rbd.py lines 330-348) -/

/-- The backend `rbd.RBD().create` call issued by create_volume, with the
arguments the driver passes. -/
structure CreateCall where
  name : List Char
  size : Nat
  old_format : Bool
  features : Nat
deriving DecidableEq

/-- The librbd layering feature bit (`rbd.RBD_FEATURE_LAYERING`). -/
def RBD_FEATURE_LAYERING : Nat := 1

/-- RBDDriver.create_volume: size 0 becomes `100 * 1024 ** 2` bytes,
size `n > 0` (whole gibibytes) becomes `n * 1024 ** 3` bytes; the image
format and feature bits depend on `_supports_layering()`. -/
def create_volume (layeringSupported : Bool) (name : List Char)
    (volSize : Nat) : CreateCall :=
  let size := if volSize = 0 then 100 * 1024 ^ 2 else volSize * 1024 ^ 3
  { name := name
    size := size
    old_format := !layeringSupported
    features := if layeringSupported then RBD_FEATURE_LAYERING else 0 }

/-! ### Backend state model for volume / snapshot deletion

librbd is an external collaborator; its `remove`, `unprotect_snap` and
`remove_snap` calls are modelled on a small state type following the
spec's description of the backend: volume removal is blocked while any
snapshot exists, and unprotect is blocked while a clone still derives
from the snapshot. -/

/-- A snapshot of an image: its protected flag and whether a clone still
depends on it. -/
structure SnapInfo where
  isProtected : Bool
  hasClones : Bool
deriving DecidableEq

/-- An image: its size in bytes and its snapshots, keyed by name. -/
structure ImageInfo where
  size : Nat
  snaps : List (String × SnapInfo)
deriving DecidableEq

/-- A pool: images keyed by name. -/
abbrev PoolState := List (String × ImageInfo)

/-- Errors raised by the modelled librbd calls. -/
inductive RBDError
  | imageNotFound
  | imageHasSnapshots
  | imageBusy
deriving DecidableEq

/-- Errors the driver raises to its caller. -/
inductive CinderError
  | volumeIsBusy
  | snapshotIsBusy
  | backendError (e : RBDError)
deriving DecidableEq

/-- Modelled backend call `rbd.RBD().remove(ioctx, name)`: fails with
`ImageHasSnapshots` while the image still has snapshots, otherwise
removes the image from the pool. -/
def RBD_remove (pool : PoolState) (name : String) :
    Except RBDError PoolState :=
  match List.lookup name pool with
  | none => .error .imageNotFound
  | some img =>
      if img.snaps.isEmpty then .ok (pool.filter (fun p => p.1 ≠ name))
      else .error .imageHasSnapshots

/-- RBDDriver.delete_volume (lines 386-392): issue the backend remove and
translate its `ImageHasSnapshots` error into `VolumeIsBusy`; any other
backend error propagates unchanged. -/
def delete_volume (pool : PoolState) (name : String) :
    Except CinderError PoolState :=
  match RBD_remove pool name with
  | .ok p => .ok p
  | .error .imageHasSnapshots => .error .volumeIsBusy
  | .error e => .error (.backendError e)

/-- Modelled backend call `Image.unprotect_snap(name)`: fails with
`ImageBusy` while a clone still depends on the snapshot, otherwise
clears its protected flag. -/
def unprotect_snap (snaps : List (String × SnapInfo)) (name : String) :
    Except RBDError (List (String × SnapInfo)) :=
  match List.lookup name snaps with
  | none => .error .imageNotFound
  | some info =>
      if info.hasClones then .error .imageBusy
      else .ok (snaps.map (fun p =>
        if p.1 = name then (p.1, { p.2 with isProtected := false }) else p))

/-- Modelled backend call `Image.remove_snap(name)`: removes the
snapshot from the image. -/
def remove_snap (snaps : List (String × SnapInfo)) (name : String) :
    List (String × SnapInfo) :=
  snaps.filter (fun p => p.1 ≠ name)

/-- The backend snapshot calls delete_snapshot makes, in order. -/
inductive SnapOp
  | unprotectCall
  | removeCall
deriving DecidableEq

/-- RBDDriver.delete_snapshot (lines 402-411), acting on the snapshot
list of the proxied volume.  When `_supports_layering()`, it first calls
`unprotect_snap`, translating the backend `ImageBusy` into
`SnapshotIsBusy` (leaving the state unchanged, the snapshot not
removed); only after a successful unprotect does it call `remove_snap`.
Without layering it calls `remove_snap` directly.  The second component
records the backend snapshot calls made. -/
def delete_snapshot (layering : Bool) (snaps : List (String × SnapInfo))
    (name : String) :
    Except CinderError (List (String × SnapInfo)) × List SnapOp :=
  if layering then
    match unprotect_snap snaps name with
    | .error .imageBusy => (.error .snapshotIsBusy, [.unprotectCall])
    | .error e => (.error (.backendError e), [.unprotectCall])
    | .ok snaps2 => (.ok (remove_snap snaps2 name), [.unprotectCall, .removeCall])
  else
    (.ok (remove_snap snaps name), [.removeCall])

/-! ### RBDDriver._is_cloneable (rbd.py lines 459-485) -/

/-- The driver's view of its own cluster for `_is_cloneable`: the local
cluster identity returned by `_get_fsid()`, and an oracle telling
whether a read-only `RBDVolumeProxy` open of (pool, image, snapshot)
succeeds — `false` models the `rbd.Error` the source catches. -/
structure ClusterView where
  fsid : List Char
  canOpen : List Char → List Char → List Char → Bool

/-- RBDDriver._is_cloneable: parse the location (an `ImageUnacceptable`
is caught and yields `false`), compare the parsed fsid with the local
one, then try to open the image read-only (an `rbd.Error` is caught and
yields `false`).  The destructuring `fsid, pool, image, snapshot = ...`
relies on `_parse_location` returning exactly four pieces; any other
shape cannot occur. -/
def is_cloneable (c : ClusterView) (image_location : List Char) : Bool :=
  match parse_location image_location with
  | .error _ => false
  | .ok [fsid, pool, image, snapshot] =>
      if c.fsid ≠ fsid then false
      else c.canOpen pool image snapshot
  | .ok _ => false

/-! ### Connection accounting (rbd.py lines 171-206, 258-275)

The rados / rbd calls of `_connect_to_rados`, `_disconnect_from_rados`,
`RBDVolumeProxy.__init__` and `RBDVolumeProxy.__exit__` are instrumented
with an event trace.  Acquisition events (`clientCreate`, and `openIoctx`
and `openImage` on success) are paired with release events (`shutdown`,
`closeIoctx`, and the `closeImage` call).  Boolean oracles say whether
each fallible backend call succeeds. -/

/-- Backend calls recorded by the instrumented connection model.
`clientCreate` is the `rados.Rados(...)` construction, `connect` a
successful `client.connect()`, `openIoctx` a successful
`client.open_ioctx(...)`, `openImage` a successful `rbd.Image(...)`;
`closeImage` is the `volume.close()` call (recorded whether or not it
raises, since the call is what releases the image), and `closeIoctx` and
`shutdown` are `ioctx.close()` and `client.shutdown()`, which the source
notes cannot raise. -/
inductive ConnEvent
  | clientCreate
  | connect
  | shutdown
  | openIoctx
  | closeIoctx
  | openImage
  | closeImage
deriving DecidableEq

/-- Exceptions of the connection model: `radosError` for `rados.Error`,
`rbdError` for `rbd.Error` (including one raised by `volume.close()`). -/
inductive ConnError
  | radosError
  | rbdError
deriving DecidableEq

/-- RBDDriver._connect_to_rados (lines 258-270): construct the client,
then inside a try block connect and open the pool ioctx; on a
`rados.Error` from either call the except clause shuts the client down
and re-raises.  `connectOk` and `openOk` are the outcomes of
`client.connect()` and `client.open_ioctx(...)`. -/
def connect_to_rados (connectOk openOk : Bool) :
    Except ConnError Unit × List ConnEvent :=
  if connectOk then
    if openOk then (.ok (), [.clientCreate, .connect, .openIoctx])
    else (.error .radosError, [.clientCreate, .connect, .shutdown])
  else (.error .radosError, [.clientCreate, .shutdown])

/-- RBDDriver._disconnect_from_rados (lines 272-275): close the ioctx,
then shut the client down. -/
def disconnect_from_rados : List ConnEvent := [.closeIoctx, .shutdown]

/-- RBDVolumeProxy.__init__ (lines 181-194): acquire a connection via
`_connect_to_rados` (its error propagates with its trace), then try to
open the image; on `rbd.Error` call `_disconnect_from_rados` and
re-raise. -/
def proxy_init (connectOk openOk imageOk : Bool) :
    Except ConnError Unit × List ConnEvent :=
  match connect_to_rados connectOk openOk with
  | (.error e, es) => (.error e, es)
  | (.ok _, es) =>
      if imageOk then (.ok (), es ++ [.openImage])
      else (.error .rbdError, es ++ disconnect_from_rados)

/-- RBDVolumeProxy.__exit__ (lines 199-203): call `volume.close()` and,
in a finally block, `_disconnect_from_rados`; `closeOk` says whether the
image close itself raises — either way the close call comes first and
the disconnect still runs. -/
def proxy_exit (closeOk : Bool) : Except ConnError Unit × List ConnEvent :=
  ((if closeOk then .ok () else .error .rbdError),
   .closeImage :: disconnect_from_rados)

/-- A full proxy bracket as a `with RBDVolumeProxy(...)` block executes
it: `__init__`, and `__exit__` when (and only when) `__init__`
succeeded. -/
def proxy_session (connectOk openOk imageOk closeOk : Bool) :
    Except ConnError Unit × List ConnEvent :=
  match proxy_init connectOk openOk imageOk with
  | (.error e, es) => (.error e, es)
  | (.ok _, es) =>
      let r := proxy_exit closeOk
      (r.1, es ++ r.2)

/-! ### Claim theorems -/

/-- C1: connection acquisitions and releases match 1:1 on every exit
path of a proxy bracket; if pool-open fails after connect succeeded,
`_connect_to_rados` shuts the client down before the error propagates;
if the image open in `RBDVolumeProxy.__init__` fails after the
connection was acquired, the connection is disconnected before the
error propagates; and `RBDVolumeProxy.__exit__` closes the image first
and then the connection, even when the image close raises. -/
theorem connection_accounting :
    (∀ a b c d : Bool,
        (proxy_session a b c d).2.count .clientCreate =
          (proxy_session a b c d).2.count .shutdown
        ∧ (proxy_session a b c d).2.count .openIoctx =
          (proxy_session a b c d).2.count .closeIoctx)
    ∧ connect_to_rados true false =
        (.error .radosError, [.clientCreate, .connect, .shutdown])
    ∧ proxy_init true true false =
        (.error .rbdError,
         [.clientCreate, .connect, .openIoctx, .closeIoctx, .shutdown])
    ∧ (∀ d : Bool,
        (proxy_exit d).2 = [.closeImage, .closeIoctx, .shutdown]) := by
  refine ⟨?_, rfl, rfl, ?_⟩
  · intro a b c d
    cases a <;> cases b <;> cases c <;> cases d <;> exact ⟨rfl, rfl⟩
  · intro d
    cases d <;> rfl

/-- C2: the claim says end-relative seek results in position
`reported size + offset`.  The source's `whence == 2` branch instead
reads `self.volume.size()` — an attribute RBDImageIOWrapper does not
define — so every end-relative seek raises `AttributeError`; and the
arithmetic as written is `size() - 1 + offset`, one short of the
claimed `size + offset` (at size 10, offset 0 it yields 9, not 10). -/
theorem seek_end_attribute_error :
    (∀ cur offset : Int,
        wrapper_seek cur offset 2 = .error .attributeError)
    ∧ seek_end_as_written 10 0 = 9 :=
  ⟨fun _ _ => rfl, rfl⟩

/-- C4: create_volume issues the backend create with exactly
`100 * 2 ^ 20` bytes when the requested size is 0, and with exactly
`n * 2 ^ 30` bytes when the requested size is `n > 0` gibibytes. -/
theorem create_volume_sizes :
    (∀ (layering : Bool) (name : List Char),
        (create_volume layering name 0).size = 100 * 2 ^ 20)
    ∧ (∀ (layering : Bool) (name : List Char) (n : Nat), 0 < n →
        (create_volume layering name n).size = n * 2 ^ 30) := by
  constructor
  · intro layering name
    rfl
  · intro layering name n hn
    have hne : n ≠ 0 := Nat.pos_iff_ne_zero.mp hn
    simp [create_volume, hne]

/-- Witness for C4 at size 3 GiB. -/
theorem create_volume_sizes_witness :
    (create_volume false ("volume-a".toList) 3).size = 3 * 2 ^ 30 :=
  create_volume_sizes.2 false ("volume-a".toList) 3 (by decide)

/-- C9: seek fails with IOError on an unrecognized whence with the
offset unchanged, and on a negative computed offset for whence 0 and 1
with the offset unchanged (an `.error` result models the exception
raised before `self._offset` is assigned).  For whence = 2, however, a
seek whose target would be negative raises `AttributeError` (the broken
`self.volume` lookup), not the input error the claim states. -/
theorem seek_error_paths :
    (∀ cur offset whence : Int, whence ≠ 0 → whence ≠ 1 → whence ≠ 2 →
        wrapper_seek cur offset whence = .error .ioError)
    ∧ (∀ cur offset : Int, offset < 0 →
        wrapper_seek cur offset 0 = .error .ioError)
    ∧ (∀ cur offset : Int, cur + offset < 0 →
        wrapper_seek cur offset 1 = .error .ioError)
    ∧ wrapper_seek 7 (-100) 2 = .error .attributeError := by
  refine ⟨?_, ?_, ?_, rfl⟩
  · intro cur offset whence h0 h1 h2
    simp [wrapper_seek, h0, h1, h2]
  · intro cur offset h
    simp [wrapper_seek, h]
  · intro cur offset h
    simp [wrapper_seek, h]

/-- Witness for C9: an unrecognized whence, a negative absolute target,
and a negative current-relative target all yield IOError. -/
theorem seek_error_paths_witness :
    wrapper_seek 0 0 5 = .error .ioError
    ∧ wrapper_seek 0 (-3) 0 = .error .ioError
    ∧ wrapper_seek 1 (-3) 1 = .error .ioError :=
  ⟨seek_error_paths.1 0 0 5 (by decide) (by decide) (by decide),
   seek_error_paths.2.1 0 (-3) (by decide),
   seek_error_paths.2.2.1 1 (-3) (by decide)⟩

/-- C5: parse_location raises ImageUnacceptable exactly when the input
lacks the `rbd://` prefix, some (decoded) path component is empty, or
the component count is not four; otherwise it returns the four decoded
components. -/
theorem parse_location_spec (loc : List Char) :
    ((∃ e, parse_location loc = .error e) ↔
      startsWithList ("rbd://".toList) loc = false
      ∨ (∃ p ∈ rbdUrlPieces loc, p = [])
      ∨ (rbdUrlPieces loc).length ≠ 4)
    ∧ (∀ ps, parse_location loc = .ok ps →
        ps = rbdUrlPieces loc ∧ ps.length = 4) := by
  have hany : (rbdUrlPieces loc).any (fun p => p.isEmpty) = true ↔
      ∃ p ∈ rbdUrlPieces loc, p = [] := by
    simp [List.any_eq_true, List.isEmpty_iff]
  have hlit : ("rbd://".toList) = ['r', 'b', 'd', ':', '/', '/'] := rfl
  rw [hlit]
  by_cases h1 : startsWithList ['r', 'b', 'd', ':', '/', '/'] loc = true
  · by_cases h2 : (rbdUrlPieces loc).any (fun p => p.isEmpty) = true
    · have hred : parse_location loc = .error .imageUnacceptable := by
        simp [parse_location, h1, h2]
      rw [hred]
      constructor
      · exact ⟨fun _ => Or.inr (Or.inl (hany.mp h2)),
               fun _ => ⟨.imageUnacceptable, rfl⟩⟩
      · intro ps hps
        exact absurd hps (by simp)
    · by_cases h3 : (rbdUrlPieces loc).length = 4
      · have hred : parse_location loc = .ok (rbdUrlPieces loc) := by
          simp [parse_location, h1, h2, h3]
        rw [hred]
        constructor
        · constructor
          · rintro ⟨e, he⟩
            exact absurd he (by simp)
          · intro hr
            rcases hr with hr | hr | hr
            · rw [h1] at hr
              exact absurd hr (by simp)
            · exact absurd (hany.mpr hr) h2
            · exact absurd h3 hr
        · intro ps hps
          injection hps with h
          exact ⟨h.symm, h ▸ h3⟩
      · have hred : parse_location loc = .error .imageUnacceptable := by
          simp [parse_location, h1, h2, h3]
        rw [hred]
        constructor
        · exact ⟨fun _ => Or.inr (Or.inr h3),
                 fun _ => ⟨.imageUnacceptable, rfl⟩⟩
        · intro ps hps
          exact absurd hps (by simp)
  · have h1f : startsWithList ['r', 'b', 'd', ':', '/', '/'] loc = false := by
      simpa using h1
    have hred : parse_location loc = .error .imageUnacceptable := by
      simp [parse_location, h1f]
    rw [hred]
    constructor
    · exact ⟨fun _ => Or.inl h1f, fun _ => ⟨.imageUnacceptable, rfl⟩⟩
    · intro ps hps
      exact absurd hps (by simp)

/-- Witness for C5 on the accepted location rbd://a/b/c/d. -/
theorem parse_location_spec_witness :
    ["a".toList, "b".toList, "c".toList, "d".toList] =
      rbdUrlPieces ("rbd://a/b/c/d".toList)
    ∧ (["a".toList, "b".toList, "c".toList, "d".toList]
        : List (List Char)).length = 4 :=
  (parse_location_spec ("rbd://a/b/c/d".toList)).2
    ["a".toList, "b".toList, "c".toList, "d".toList] rfl

/-- C10: on an accepted location the returned components are exactly the
percent-decoded values of the pieces obtained by splitting on `/` (so
the blank and count-4 checks were applied to the decoded strings), and
a component containing an encoded separator (%2F) is accepted as a
single component whose decoded value contains `/`. -/
theorem parse_location_decoding :
    (∀ loc ps, parse_location loc = .ok ps →
        ps = (splitOnChar '/' (loc.drop 6)).map unquote)
    ∧ parse_location ("rbd://fsid/pool/im%2Fage/snap".toList) =
        .ok ["fsid".toList, "pool".toList, "im/age".toList, "snap".toList] := by
  constructor
  · intro loc ps h
    simp only [parse_location] at h
    split_ifs at h with ha hb hc
    injection h with h
    exact h.symm
  · rfl

/-- Witness for C10: the decoded components of the %2F location. -/
theorem parse_location_decoding_witness :
    ["fsid".toList, "pool".toList, "im/age".toList, "snap".toList] =
      (splitOnChar '/'
        (("rbd://fsid/pool/im%2Fage/snap".toList).drop 6)).map unquote :=
  parse_location_decoding.1 ("rbd://fsid/pool/im%2Fage/snap".toList)
    ["fsid".toList, "pool".toList, "im/age".toList, "snap".toList]
    parse_location_decoding.2

/-- C8: is_cloneable returns true exactly when the location parses, the
parsed cluster identity equals the local one, and the referenced image
opens read-only; every failure (parse failure, cluster mismatch, open
failure) yields false — the function is total, nothing propagates. -/
theorem is_cloneable_spec (c : ClusterView) (loc : List Char) :
    is_cloneable c loc = true ↔
      ∃ fsid pool image snapshot,
        parse_location loc = .ok [fsid, pool, image, snapshot]
        ∧ c.fsid = fsid ∧ c.canOpen pool image snapshot = true := by
  constructor
  · intro h
    unfold is_cloneable at h
    rcases hp : parse_location loc with e | ps
    · rw [hp] at h
      simp at h
    · rw [hp] at h
      rcases ps with _ | ⟨a, _ | ⟨b, _ | ⟨x, _ | ⟨d, _ | _⟩⟩⟩⟩ <;> simp at h
      rcases h with ⟨hf, ho⟩
      exact ⟨a, b, x, d, rfl, by simpa using hf, ho⟩
  · rintro ⟨fsid, pool, image, snapshot, hp, hf, ho⟩
    unfold is_cloneable
    rw [hp]
    simp [hf, ho]

/-- C6: delete_volume raises VolumeIsBusy exactly when the backend
remove reports the volume still has snapshots; with no snapshots the
volume is removed and no VolumeIsBusy is raised. -/
theorem delete_volume_spec (pool : PoolState) (name : String) :
    (delete_volume pool name = .error .volumeIsBusy ↔
      ∃ img, List.lookup name pool = some img ∧ img.snaps ≠ [])
    ∧ (∀ img, List.lookup name pool = some img → img.snaps = [] →
        delete_volume pool name = .ok (pool.filter (fun p => p.1 ≠ name))) := by
  rcases hl : List.lookup name pool with _ | img
  · constructor
    · constructor
      · intro h
        simp [delete_volume, RBD_remove, hl] at h
      · rintro ⟨img, himg, _⟩
        exact absurd himg (by simp)
    · intro img himg
      exact absurd himg (by simp)
  · by_cases hs : img.snaps.isEmpty
    · have hred : delete_volume pool name =
          .ok (pool.filter (fun p => p.1 ≠ name)) := by
        simp [delete_volume, RBD_remove, hl, hs]
      constructor
      · rw [hred]
        constructor
        · intro h
          exact absurd h (by simp)
        · rintro ⟨img2, himg2, hne⟩
          injection himg2 with he
          exact absurd (he ▸ List.isEmpty_iff.mp hs) hne
      · intro img2 _ _
        exact hred
    · have hred : delete_volume pool name = .error .volumeIsBusy := by
        simp [delete_volume, RBD_remove, hl, hs]
      constructor
      · rw [hred]
        constructor
        · intro _
          refine ⟨img, rfl, fun hnil => hs ?_⟩
          simp [hnil]
        · intro _
          rfl
      · intro img2 himg2 hnil2
        injection himg2 with he
        exact absurd (List.isEmpty_iff.mpr (he.symm ▸ hnil2)) hs

/-- Witness for C6: a volume without snapshots is removed. -/
theorem delete_volume_spec_witness :
    delete_volume
      [("volume-1", ⟨1073741824, []⟩),
       ("volume-2", ⟨1073741824, [("snap-1", ⟨false, false⟩)]⟩)]
      "volume-1" =
    .ok ([("volume-1", (⟨1073741824, []⟩ : ImageInfo)),
          ("volume-2", ⟨1073741824, [("snap-1", ⟨false, false⟩)]⟩)].filter
            (fun p => p.1 ≠ "volume-1")) :=
  (delete_volume_spec
      [("volume-1", ⟨1073741824, []⟩),
       ("volume-2", ⟨1073741824, [("snap-1", ⟨false, false⟩)]⟩)]
      "volume-1").2 ⟨1073741824, []⟩ (by decide) rfl

/-- Looking a snapshot up after remove_snap removed it finds nothing. -/
theorem lookup_remove_snap (s : List (String × SnapInfo)) (name : String) :
    List.lookup name (remove_snap s name) = none := by
  induction s with
  | nil => rfl
  | cons hd tl ih =>
    by_cases h : hd.1 = name
    · simpa [remove_snap, List.filter, h] using ih
    · have hb : (name == hd.1) = false :=
        beq_eq_false_iff_ne.mpr (fun e => h e.symm)
      simpa [remove_snap, List.filter, h, List.lookup, hb] using ih

/-- C7: delete_snapshot under layering first unprotects — a backend
busy (a clone still depends on the snapshot) becomes SnapshotIsBusy and
the snapshot is not removed (an `.error` result carries no state
change) — and removes the snapshot only after a successful unprotect;
without layering it removes the snapshot with no unprotect call. -/
theorem delete_snapshot_spec (snaps : List (String × SnapInfo))
    (name : String) (info : SnapInfo)
    (hmem : List.lookup name snaps = some info) :
    (info.hasClones = true →
        delete_snapshot true snaps name =
          (.error .snapshotIsBusy, [.unprotectCall]))
    ∧ (info.hasClones = false →
        ∃ snaps2, delete_snapshot true snaps name =
            (.ok (remove_snap snaps2 name), [.unprotectCall, .removeCall])
          ∧ List.lookup name (remove_snap snaps2 name) = none)
    ∧ (delete_snapshot false snaps name =
          (.ok (remove_snap snaps name), [.removeCall])
        ∧ List.lookup name (remove_snap snaps name) = none) := by
  refine ⟨?_, ?_, rfl, lookup_remove_snap snaps name⟩
  · intro hcl
    simp [delete_snapshot, unprotect_snap, hmem, hcl]
  · intro hcl
    refine ⟨snaps.map (fun p =>
      if p.1 = name then (p.1, { p.2 with isProtected := false }) else p),
      ?_, lookup_remove_snap _ _⟩
    simp [delete_snapshot, unprotect_snap, hmem, hcl]

/-- Witness for C7: a snapshot with a dependent clone yields
SnapshotIsBusy after the unprotect call alone. -/
theorem delete_snapshot_spec_witness :
    delete_snapshot true [("snap-1", ⟨true, true⟩)] "snap-1" =
      (.error .snapshotIsBusy, [.unprotectCall]) :=
  (delete_snapshot_spec [("snap-1", ⟨true, true⟩)] "snap-1"
    ⟨true, true⟩ (by decide)).1 rfl

/-- C3: for a stream position within the image, read at offset equal to
the image size returns empty without error and leaves the offset alone;
an unspecified length defaults to the remaining bytes; a length
overshooting the end is clamped to the remaining bytes; the offset
always advances by exactly the number of bytes returned; and a read of
the whole stream from offset 0 returns the full content. -/
theorem wrapper_read_spec (data : List Nat) (cur : Int) (len? : Option Int)
    (h0 : 0 ≤ cur) (h1 : cur ≤ (data.length : Int))
    (hl : ∀ l, len? = some l → 0 ≤ l) :
    (cur = (data.length : Int) → wrapper_read data cur len? = ([], cur))
    ∧ (len? = none →
        (wrapper_read data cur len?).1.length = data.length - cur.toNat)
    ∧ (∀ l, len? = some l → (data.length : Int) < cur + l →
        (wrapper_read data cur len?).1.length = data.length - cur.toNat)
    ∧ ((wrapper_read data cur len?).2 =
        cur + ((wrapper_read data cur len?).1.length : Int))
    ∧ wrapper_read data 0 none = (data, (data.length : Int)) := by
  have hfull : wrapper_read data 0 none = (data, (data.length : Int)) := by
    by_cases hz : (0 : Int) = (data.length : Int)
    · have hd : data = [] := by
        have : data.length = 0 := by omega
        exact List.eq_nil_of_length_eq_zero this
      subst hd
      simp [wrapper_read]
    · have hng : ¬((0 : Int) + (data.length : Int) > (data.length : Int)) := by
        omega
      simp only [wrapper_read, Option.getD_none]
      rw [if_neg hz, if_neg hng]
      simp [rbd_image_read]
  by_cases hc : cur = (data.length : Int)
  · have hcn : cur.toNat = data.length := by omega
    have hred : wrapper_read data cur len? = ([], cur) := by
      simp only [wrapper_read]
      rw [if_pos hc]
    refine ⟨fun _ => hred, fun _ => ?_, fun l _ _ => ?_, ?_, hfull⟩
    · rw [hred]
      simp [hcn]
    · rw [hred]
      simp [hcn]
    · rw [hred]
      simp
  · obtain ⟨l0, hl0def, hl0nn⟩ :
        ∃ l0, len?.getD (data.length : Int) = l0 ∧ 0 ≤ l0 := by
      cases len? with
      | none => exact ⟨(data.length : Int), rfl, by positivity⟩
      | some l => exact ⟨l, rfl, hl l rfl⟩
    have hread : wrapper_read data cur len? =
        (rbd_image_read data cur
          (if cur + l0 > (data.length : Int)
            then (data.length : Int) - cur else l0),
         cur + (if cur + l0 > (data.length : Int)
            then (data.length : Int) - cur else l0)) := by
      simp only [wrapper_read]
      rw [if_neg hc, hl0def]
    set leff := if cur + l0 > (data.length : Int)
        then (data.length : Int) - cur else l0 with hleff
    have hleffnn : 0 ≤ leff := by
      rw [hleff]
      split_ifs <;> omega
    have hrange : cur + leff ≤ (data.length : Int) := by
      rw [hleff]
      split_ifs <;> omega
    have hlen : (wrapper_read data cur len?).1.length = leff.toNat := by
      rw [hread]
      simp only [rbd_image_read, List.length_take, List.length_drop]
      have hle : leff.toNat ≤ data.length - cur.toNat := by omega
      exact Nat.min_eq_left hle
    refine ⟨fun h => absurd h hc, ?_, ?_, ?_, hfull⟩
    · intro hnone
      have hl0L : l0 = (data.length : Int) := by
        rw [hnone] at hl0def
        simpa using hl0def.symm
      rw [hlen, hleff, hl0L]
      split_ifs <;> omega
    · intro l hsome hgt
      have hl0l : l0 = l := by
        rw [hsome] at hl0def
        simpa using hl0def.symm
      rw [hlen, hleff, hl0l]
      rw [if_pos (by omega)]
      omega
    · rw [hlen, hread]
      simp only []
      omega

/-- Witness for C3 on a 3-byte image at offset 1 with an overshooting
requested length of 5. -/
theorem wrapper_read_spec_witness :
    (wrapper_read [7, 8, 9] 1 (some 5)).2 =
      1 + (((wrapper_read [7, 8, 9] 1 (some 5)).1.length : Nat) : Int) :=
  (wrapper_read_spec [7, 8, 9] 1 (some 5) (by decide) (by decide)
    (by simp)).2.2.2.1
